import Mathlib

/-!
Shallow embedding of the Astarte device SDK core (`device/device.go`):
the device construction path, the interface registry with its validation
rules, and the asynchronous connection-handshake routine `Connect`.

External collaborators (the `astarte-go` enum validators and pairing
client, the paho MQTT transport) live outside the embedded source; they
are modelled from the specification as oracles: an environment record
supplies the outcome of each collaborator call, and the embedded
functions record how many times each collaborator was invoked and which
values were sent on the caller's result channel.
-/

/-- Modelled from the spec: the platform's fixed device-ID encoding rule
(`misc.IsValidAstarteDeviceID` from `astarte-go`, outside the embedded
source). A valid Astarte device ID is a 128-bit identifier in URL-safe
base64: 22 characters drawn from letters, digits, `-` and `_`. -/
def IsValidAstarteDeviceID (deviceID : String) : Bool :=
  deviceID.length = 22 &&
    deviceID.toList.all (fun c => c.isAlphanum || c = '-' || c = '_')

/-- Modelled from the spec: the aggregation enumeration (each data point
independent vs. grouped as one object); `IsValid` accepts exactly the
fixed legal values and returns an error otherwise. `none` plays the role
of Go's `nil` error. -/
def aggregationIsValid (a : String) : Option String :=
  if a = "individual" || a = "object" then none
  else some "invalid aggregation"

/-- Modelled from the spec: the interface-type enumeration (time-series
stream vs. persistent property). -/
def typeIsValid (t : String) : Option String :=
  if t = "datastream" || t = "properties" then none
  else some "invalid interface type"

/-- Modelled from the spec: the ownership enumeration (device- or
server-owned). -/
def ownershipIsValid (o : String) : Option String :=
  if o = "device" || o = "server" then none
  else some "invalid ownership"

/-- Modelled from the spec: the reliability enumeration (at-most-once /
at-least-once / exactly-once-style delivery). -/
def reliabilityIsValid (r : String) : Option String :=
  if r = "unreliable" || r = "guaranteed" || r = "unique" then none
  else some "invalid reliability"

/-- Modelled from the spec: the retention enumeration
(discard-if-undelivered / volatile / stored). -/
def retentionIsValid (r : String) : Option String :=
  if r = "discard" || r = "volatile" || r = "stored" then none
  else some "invalid retention"

/-- Modelled from the spec: the database-retention-policy enumeration.
It is a method of the policy value alone, so its verdict cannot depend on
the interface type the mapping sits in. -/
def databaseRetentionPolicyIsValid (p : String) : Option String :=
  if p = "no_ttl" || p = "use_ttl" then none
  else some "invalid database retention policy"

/-- One mapping of an Astarte interface, with the three enumerated
fields `AddInterface` inspects (source: `interfaces.AstarteInterfaceMapping`
of `astarte-go`; the enumerations are carried as their string encodings,
as in the Go source). -/
structure AstarteInterfaceMapping where
  Reliability : String
  Retention : String
  DatabaseRetentionPolicy : String
deriving DecidableEq, Repr

/-- An Astarte interface, with the fields `AddInterface` inspects
(`Type_` embeds the Go field `Type`, a reserved word in Lean). -/
structure AstarteInterface where
  Name : String
  Aggregation : String
  Type_ : String
  Ownership : String
  Mappings : List AstarteInterfaceMapping
deriving DecidableEq, Repr

/-- Modelled from the spec: the pairing API client
(`client.Client` of `astarte-go`), reduced to the state the core sets:
its pairing base URL and the bearer token installed by `SetToken`. -/
structure Client where
  pairingBaseURL : String
  token : Option String
deriving DecidableEq, Repr

/-- Modelled from the spec: the transport handle (`mqtt.Client`),
reduced to the live connectivity it reports. -/
structure MqttClient where
  connected : Bool
deriving DecidableEq, Repr

/-- The `Device` struct of `device.go`, restricted to the fields the
embedded operations read or write (the four callback slots and the
custom root-CA pool play no part in the claims). `m = none` embeds the
Go `nil` transport handle. -/
structure Device where
  deviceID : String
  realm : String
  persistencyDir : String
  m : Option MqttClient
  interfaces : List (String × AstarteInterface)
  astarteAPIClient : Option Client
  AutoReconnect : Bool
deriving DecidableEq, Repr

/-- Go-map insertion on the association-list embedding of
`map[string]interfaces.AstarteInterface`: replaces the entry with the
given key if present, appends otherwise. -/
def mapInsert (k : String) (v : AstarteInterface) :
    List (String × AstarteInterface) → List (String × AstarteInterface)
  | [] => [(k, v)]
  | (k', v') :: rest =>
    if k' = k then (k, v) :: rest else (k', v') :: mapInsert k v rest

/-- Go-map lookup on the association-list embedding. -/
def mapLookup (k : String) :
    List (String × AstarteInterface) → Option AstarteInterface
  | [] => none
  | (k', v) :: rest => if k' = k then some v else mapLookup k rest

/-- Go-map deletion on the association-list embedding. -/
def mapErase (k : String) :
    List (String × AstarteInterface) → List (String × AstarteInterface)
  | [] => []
  | (k', v) :: rest => if k' = k then rest else (k', v) :: mapErase k rest

/-- `Device.IsConnected` (device.go:180-185): `false` while no transport
handle exists, otherwise the transport's live connectivity. -/
def Device.IsConnected (d : Device) : Bool :=
  match d.m with
  | some c => c.connected
  | none => false

/-- The mapping loop of `AddInterface` (device.go:202-212): for each
mapping in order, check reliability, retention, then database-retention
policy, returning the first error. -/
def validateMappings : List AstarteInterfaceMapping → Option String
  | [] => none
  | mapping :: rest =>
    match reliabilityIsValid mapping.Reliability with
    | some err => some err
    | none =>
      match retentionIsValid mapping.Retention with
      | some err => some err
      | none =>
        match databaseRetentionPolicyIsValid mapping.DatabaseRetentionPolicy with
        | some err => some err
        | none => validateMappings rest

/-- `Device.AddInterface` (device.go:191-216). Returns the Go error
(`none` = `nil`) together with the post-state of the device: each failed
check returns early with the device untouched; once all checks pass the
interface is inserted keyed by name. -/
def AddInterface (d : Device) (astarteInterface : AstarteInterface) :
    Option String × Device :=
  match aggregationIsValid astarteInterface.Aggregation with
  | some err => (some err, d)
  | none =>
    match typeIsValid astarteInterface.Type_ with
    | some err => (some err, d)
    | none =>
      match ownershipIsValid astarteInterface.Ownership with
      | some err => (some err, d)
      | none =>
        match validateMappings astarteInterface.Mappings with
        | some err => (some err, d)
        | none =>
          (none, { d with
            interfaces := mapInsert astarteInterface.Name astarteInterface d.interfaces })

/-- `Device.RemoveInterface` (device.go:219-221). -/
def RemoveInterface (d : Device) (astarteInterface : AstarteInterface) : Device :=
  { d with interfaces := mapErase astarteInterface.Name d.interfaces }

/-- Spec-side definition, for the refinement comparison in the
validation-order claims: the ordered list of per-field check results the
spec says `add` consults — aggregation, type, ownership, then for each
mapping in order its reliability, retention and database-retention
policy. -/
def validationSequence (i : AstarteInterface) : List (Option String) :=
  [aggregationIsValid i.Aggregation, typeIsValid i.Type_,
   ownershipIsValid i.Ownership] ++
  (i.Mappings.map (fun mp =>
    [reliabilityIsValid mp.Reliability, retentionIsValid mp.Retention,
     databaseRetentionPolicyIsValid mp.DatabaseRetentionPolicy])).flatten

/-- Spec-side definition: the first error of a list of check results
(short-circuit order). -/
def firstSome : List (Option String) → Option String
  | [] => none
  | some e :: _ => some e
  | none :: rest => firstSome rest

lemma validateMappings_eq_firstSome (l : List AstarteInterfaceMapping) :
    validateMappings l =
      firstSome ((l.map (fun mp =>
        [reliabilityIsValid mp.Reliability, retentionIsValid mp.Retention,
         databaseRetentionPolicyIsValid mp.DatabaseRetentionPolicy])).flatten) := by
  induction l with
  | nil => rfl
  | cons mp rest ih =>
    simp only [validateMappings, List.map_cons, List.flatten_cons]
    cases reliabilityIsValid mp.Reliability with
    | some e => simp [firstSome]
    | none =>
      cases retentionIsValid mp.Retention with
      | some e => simp [firstSome]
      | none =>
        cases databaseRetentionPolicyIsValid mp.DatabaseRetentionPolicy with
        | some e => simp [firstSome]
        | none => simpa [firstSome] using ih

/-- Shared refinement lemma: `AddInterface` returns exactly the first
failing check in the spec's claimed order, and mutates the registry
exactly when no check fails. -/
lemma addInterface_eq (d : Device) (i : AstarteInterface) :
    AddInterface d i =
      (firstSome (validationSequence i),
       if firstSome (validationSequence i) = none then
         { d with interfaces := mapInsert i.Name i d.interfaces }
       else d) := by
  unfold AddInterface validationSequence
  cases aggregationIsValid i.Aggregation with
  | some e => simp [firstSome]
  | none =>
    cases typeIsValid i.Type_ with
    | some e => simp [firstSome]
    | none =>
      cases ownershipIsValid i.Ownership with
      | some e => simp [firstSome]
      | none =>
        simp only [List.cons_append, List.nil_append, firstSome]
        rw [validateMappings_eq_firstSome]
        cases h : firstSome ((i.Mappings.map (fun mp =>
          [reliabilityIsValid mp.Reliability, retentionIsValid mp.Retention,
           databaseRetentionPolicyIsValid mp.DatabaseRetentionPolicy])).flatten) <;>
          simp [h]

lemma addInterface_fst (d : Device) (i : AstarteInterface) :
    (AddInterface d i).1 = firstSome (validationSequence i) := by
  rw [addInterface_eq]

lemma addInterface_snd_of_err (d : Device) (i : AstarteInterface)
    (h : firstSome (validationSequence i) ≠ none) : (AddInterface d i).2 = d := by
  rw [addInterface_eq]; simp [h]

lemma addInterface_snd_of_ok (d : Device) (i : AstarteInterface)
    (h : firstSome (validationSequence i) = none) :
    (AddInterface d i).2.interfaces = mapInsert i.Name i d.interfaces := by
  rw [addInterface_eq]; simp [h]

lemma firstSome_eq_none_iff (l : List (Option String)) :
    firstSome l = none ↔ ∀ chk ∈ l, chk = none := by
  induction l with
  | nil => simp [firstSome]
  | cons o rest ih =>
    cases o with
    | some e => simp [firstSome]
    | none => simpa [firstSome] using ih

lemma mapLookup_insert (k : String) (v : AstarteInterface)
    (l : List (String × AstarteInterface)) :
    mapLookup k (mapInsert k v l) = some v := by
  induction l with
  | nil => simp [mapInsert, mapLookup]
  | cons p rest ih =>
    by_cases h : p.1 = k
    · simp [mapInsert, mapLookup, h]
    · simp [mapInsert, mapLookup, h, ih]

/-- Outcome record of a device-construction call: the temporary
persistence directories created, how many pairing API clients were
instantiated, and the Go return value (device or error). -/
structure ConstructOutcome where
  tempDirsCreated : List String
  clientsCreated : Nat
  result : Except String Device
deriving Repr

/-- `newDevice` (device.go:65-84): validate the device ID, then build
the device and its pairing API client, installing the credentials secret
as the client token. The collaborator call
`client.NewClientWithIndividualURLs` is an oracle: `clientResult` is
what it returns. The first component counts clients instantiated. -/
def newDevice (deviceID realm credentialsSecret pairingBaseURL persistencyDir : String)
    (clientResult : Except String Client) : Nat × Except String Device :=
  if IsValidAstarteDeviceID deviceID = false then
    (0, Except.error (deviceID ++ " is not a valid Device ID"))
  else
    match clientResult with
    | Except.error e => (0, Except.error e)
    | Except.ok c =>
      (1, Except.ok
        { deviceID := deviceID
          realm := realm
          persistencyDir := persistencyDir
          m := none
          interfaces := []
          astarteAPIClient := some { c with token := some credentialsSecret }
          AutoReconnect := false })

/-- `NewDevice` (device.go:49-58): create a temporary directory for the
persistent data (the `ioutil.TempDir` collaborator call is the
`tempDirResult` oracle; `Except.ok dir` means the directory `dir` was
created on disk), then delegate to `newDevice`. -/
def NewDevice (deviceID realm credentialsSecret pairingBaseURL : String)
    (tempDirResult : Except String String)
    (clientResult : Except String Client) : ConstructOutcome :=
  match tempDirResult with
  | Except.error e =>
    { tempDirsCreated := [], clientsCreated := 0, result := Except.error e }
  | Except.ok persistencyDir =>
    let r := newDevice deviceID realm credentialsSecret pairingBaseURL
      persistencyDir clientResult
    { tempDirsCreated := [persistencyDir], clientsCreated := r.1, result := r.2 }

/-- `NewDeviceWithPersistency` (device.go:61-63): delegate to
`newDevice` with a caller-supplied persistency directory; no directory
is created. -/
def NewDeviceWithPersistency (deviceID realm credentialsSecret pairingBaseURL persistencyDir : String)
    (clientResult : Except String Client) : ConstructOutcome :=
  let r := newDevice deviceID realm credentialsSecret pairingBaseURL
    persistencyDir clientResult
  { tempDirsCreated := [], clientsCreated := r.1, result := r.2 }

/-- Oracle for the collaborator calls one `Connect` handshake makes:
`brokerResults` lists the successive outcomes of `getBrokerURL`
(a terminating run consumes a finite prefix); `certResult` is the
`ensureCertificate` error, `mqttInitResult` the `initializeMQTTClient`
error (`none` = `nil`); `connectComplete` is what the MQTT connect
token's `WaitTimeout(30s)` returns, `connectError` the token's error;
`subscribeResult` and `introspectionResult` are the errors of
`setupSubscriptions` and `sendIntrospection`. -/
structure ConnectEnv where
  brokerResults : List (Except String String)
  certResult : Option String
  mqttInitResult : Option String
  connectComplete : Bool
  connectError : Option String
  subscribeResult : Option String
  introspectionResult : Option String
deriving Repr

/-- Observable outcome of one `Connect` handshake task: the values sent
on the caller's result channel in order (`none` = the `nil` success
value), the number of `getBrokerURL` attempts and the total time units
slept between them, the call counts of the other collaborator steps,
the number of `Disconnect` requests made to the transport, and the
device state when the task returns. -/
structure ConnectOutcome where
  emitted : List (Option String)
  brokerAttempts : Nat
  brokerWaitUnits : Nat
  certCalls : Nat
  transportConnectCalls : Nat
  subscribeCalls : Nat
  introspectionCalls : Nat
  disconnectRequests : Nat
  finalDevice : Device
deriving DecidableEq, Repr

/-- The outcome of a task that did nothing yet. -/
def baseOutcome (d : Device) : ConnectOutcome :=
  { emitted := []
    brokerAttempts := 0
    brokerWaitUnits := 0
    certCalls := 0
    transportConnectCalls := 0
    subscribeCalls := 0
    introspectionCalls := 0
    disconnectRequests := 0
    finalDevice := d }

/-- The broker-resolution loop of `Connect` (device.go:107-130): one
`getBrokerURL` call, then: on error with auto-reconnect, sleep 30 time
units and retry; on error without auto-reconnect, stop with the error;
on success, stop with the URL. Returns the final outcome, the number of
attempts and the time units slept; `none` embeds a run the supplied
oracle prefix does not terminate (with auto-reconnect the loop retries
unboundedly until a success). -/
def resolveBroker (autoReconnect : Bool) :
    List (Except String String) → Option (Except String String × Nat × Nat)
  | [] => none
  | Except.ok url :: _ => some (Except.ok url, 1, 0)
  | Except.error e :: rest =>
    if autoReconnect then
      match resolveBroker autoReconnect rest with
      | none => none
      | some (r, n, w) => some (r, n + 1, w + 30)
    else
      some (Except.error e, 1, 0)

/-- The tail of `Connect` after the transport-connect step
(device.go:156-169): `setupSubscriptions`, then `sendIntrospection`,
each on failure requesting `d.m.Disconnect(0)` and emitting the error;
on success the `nil` outcome is emitted. `pre` carries the values
already sent on the channel (the auto-reconnect path may already have
emitted the transport-connect error); `transportUp` is the live
connectivity the transport reports if it is left untouched. -/
def afterTransport (d : Device) (subscribeResult introspectionResult : Option String)
    (n w : Nat) (pre : List (Option String)) (transportUp : Bool) : ConnectOutcome :=
  match subscribeResult with
  | some e =>
    { emitted := pre ++ [some e]
      brokerAttempts := n
      brokerWaitUnits := w
      certCalls := 1
      transportConnectCalls := 1
      subscribeCalls := 1
      introspectionCalls := 0
      disconnectRequests := 1
      finalDevice := { d with m := some { connected := false } } }
  | none =>
    match introspectionResult with
    | some e =>
      { emitted := pre ++ [some e]
        brokerAttempts := n
        brokerWaitUnits := w
        certCalls := 1
        transportConnectCalls := 1
        subscribeCalls := 1
        introspectionCalls := 1
        disconnectRequests := 1
        finalDevice := { d with m := some { connected := false } } }
    | none =>
      { emitted := pre ++ [none]
        brokerAttempts := n
        brokerWaitUnits := w
        certCalls := 1
        transportConnectCalls := 1
        subscribeCalls := 1
        introspectionCalls := 1
        disconnectRequests := 0
        finalDevice := { d with m := some { connected := transportUp } } }

/-- `Device.Connect` (device.go:87-171), the body of the goroutine.
`resultChanNil` embeds whether the caller passed a `nil` channel.
Control flow, matching the source line by line: nil-channel guard;
`IsConnected` idempotence check; empty-registry check; broker
resolution (the only retrying step); `ensureCertificate`;
`initializeMQTTClient` (on success the transport handle comes into
existence, not yet connected); the transport connect wait — with
auto-reconnect an unbounded wait that emits the token's error but falls
through regardless, without auto-reconnect a 30-unit `WaitTimeout`
whose failure emits a timeout error and returns, and whose success is
never followed by a token-error check; then subscriptions and
introspection. `none` embeds a run that never terminates (unbounded
broker retry without a success in the oracle prefix). -/
def Connect (d : Device) (resultChanNil : Bool) (env : ConnectEnv) :
    Option ConnectOutcome :=
  match resultChanNil with
  | true => some (baseOutcome d)
  | false =>
  match d.IsConnected with
  | true => some { baseOutcome d with emitted := [none] }
  | false =>
  match d.interfaces with
  | [] =>
    some { baseOutcome d with
      emitted := [some "Add at least an interface before attempting to connect"] }
  | _ :: _ =>
  match resolveBroker d.AutoReconnect env.brokerResults with
  | none => none
  | some (Except.error e, n, w) =>
    some { baseOutcome d with
      emitted := [some e], brokerAttempts := n, brokerWaitUnits := w }
  | some (Except.ok _brokerURL, n, w) =>
    match env.certResult with
    | some e =>
      some { baseOutcome d with
        emitted := [some e], brokerAttempts := n, brokerWaitUnits := w,
        certCalls := 1 }
    | none =>
      match env.mqttInitResult with
      | some e =>
        some { baseOutcome d with
          emitted := [some e], brokerAttempts := n, brokerWaitUnits := w,
          certCalls := 1 }
      | none =>
        match d.AutoReconnect with
        | true =>
          match env.connectError with
          | some ce =>
            some (afterTransport { d with m := some { connected := false } }
              env.subscribeResult env.introspectionResult n w [some ce] false)
          | none =>
            some (afterTransport { d with m := some { connected := false } }
              env.subscribeResult env.introspectionResult n w [] true)
        | false =>
          match env.connectComplete with
          | false =>
            some { baseOutcome { d with m := some { connected := false } } with
              emitted := [some "Timed out while connecting to the Broker."],
              brokerAttempts := n, brokerWaitUnits := w, certCalls := 1,
              transportConnectCalls := 1 }
          | true =>
            some (afterTransport { d with m := some { connected := false } }
              env.subscribeResult env.introspectionResult n w []
              env.connectError.isNone)

lemma afterTransport_emitted_length (d : Device) (s i : Option String) (n w : Nat)
    (pre : List (Option String)) (up : Bool) :
    (afterTransport d s i n w pre up).emitted.length = pre.length + 1 := by
  unfold afterTransport
  cases s with
  | some e => simp
  | none =>
    cases i with
    | some e => simp
    | none => simp

lemma afterTransport_certCalls (d : Device) (s i : Option String) (n w : Nat)
    (pre : List (Option String)) (up : Bool) :
    (afterTransport d s i n w pre up).certCalls = 1 := by
  unfold afterTransport
  cases s with
  | some e => rfl
  | none =>
    cases i with
    | some e => rfl
    | none => rfl

lemma afterTransport_failure (d : Device) (s i : Option String) (e : String)
    (n w : Nat) (pre : List (Option String)) (up : Bool)
    (hfail : s = some e ∨ (s = none ∧ i = some e)) :
    (afterTransport d s i n w pre up).disconnectRequests = 1 ∧
    (afterTransport d s i n w pre up).emitted = pre ++ [some e] ∧
    (afterTransport d s i n w pre up).finalDevice.IsConnected = false := by
  rcases hfail with h | ⟨h1, h2⟩
  · subst h; exact ⟨rfl, rfl, rfl⟩
  · subst h1; subst h2; exact ⟨rfl, rfl, rfl⟩

lemma resolveBroker_attempts_pos (b : Bool) (l : List (Except String String))
    (r : Except String String) (n w : Nat)
    (h : resolveBroker b l = some (r, n, w)) : 1 ≤ n := by
  induction l generalizing r n w with
  | nil => simp [resolveBroker] at h
  | cons x rest ih =>
    cases x with
    | ok url => simp [resolveBroker] at h; omega
    | error e =>
      by_cases hb : b = true
      · subst hb
        simp only [resolveBroker, if_true] at h
        cases hrec : resolveBroker true rest with
        | none => rw [hrec] at h; simp at h
        | some p =>
          obtain ⟨r', n', w'⟩ := p
          rw [hrec] at h
          simp at h
          have := ih r' n' w' hrec
          omega
      · have hb' : b = false := by revert hb; cases b <;> simp
        subst hb'
        simp [resolveBroker] at h
        omega

lemma resolveBroker_autoReconnect_ok (l : List (Except String String))
    (r : Except String String) (n w : Nat)
    (h : resolveBroker true l = some (r, n, w)) :
    (∃ u, r = Except.ok u) ∧ w = 30 * (n - 1) := by
  induction l generalizing r n w with
  | nil => simp [resolveBroker] at h
  | cons x rest ih =>
    cases x with
    | ok url =>
      simp [resolveBroker] at h
      obtain ⟨hr, hn, hw⟩ := h
      exact ⟨⟨url, hr.symm⟩, by omega⟩
    | error e =>
      simp only [resolveBroker, if_true] at h
      cases hrec : resolveBroker true rest with
      | none => rw [hrec] at h; simp at h
      | some p =>
        obtain ⟨r', n', w'⟩ := p
        rw [hrec] at h
        simp at h
        obtain ⟨hr, hn, hw⟩ := h
        obtain ⟨⟨u, hu⟩, hw'⟩ := ih r' n' w' hrec
        have hpos := resolveBroker_attempts_pos true rest r' n' w' hrec
        subst hr
        exact ⟨⟨u, hu⟩, by omega⟩

lemma resolveBroker_retries_until_ok (errs : List (Except String String))
    (u : String) (rest : List (Except String String))
    (herrs : ∀ x ∈ errs, ∃ msg, x = Except.error msg) :
    resolveBroker true (errs ++ Except.ok u :: rest) =
      some (Except.ok u, errs.length + 1, 30 * errs.length) := by
  induction errs with
  | nil => simp [resolveBroker]
  | cons x xs ih =>
    obtain ⟨msg, hx⟩ := herrs x (by simp)
    subst hx
    have ih' := ih (fun y hy => herrs y (by simp [hy]))
    simp only [List.cons_append, resolveBroker, if_true, List.append_eq]
    rw [ih']
    simp only [Option.some.injEq, Prod.mk.injEq, List.length_cons]
    refine ⟨?_, ?_, ?_⟩ <;> first | trivial | omega

/-- A sample valid interface, used to instantiate witnesses. -/
def sampleInterface : AstarteInterface :=
  { Name := "com.example.A"
    Aggregation := "individual"
    Type_ := "datastream"
    Ownership := "device"
    Mappings := [{ Reliability := "unreliable", Retention := "discard",
                   DatabaseRetentionPolicy := "no_ttl" }] }

/-- A sample disconnected device with one registered interface, used to
instantiate witnesses. -/
def sampleDevice : Device :=
  { deviceID := "ABCDEFGHIJKLMNOPQRSTUV"
    realm := "test"
    persistencyDir := "/tmp/astarte"
    m := none
    interfaces := [("com.example.A", sampleInterface)]
    astarteAPIClient := none
    AutoReconnect := false }

/-- A sample all-success collaborator environment, used to instantiate
witnesses. -/
def sampleEnv : ConnectEnv :=
  { brokerResults := [Except.ok "mqtts://broker.example"]
    certResult := none
    mqttInitResult := none
    connectComplete := true
    connectError := none
    subscribeResult := none
    introspectionResult := none }

/-- C4: `AddInterface` is atomic — for every registry state and every
interface containing at least one invalid enumerated field, the call
returns an error and the registry's contents after the call equal its
contents before the call. -/
theorem addInterface_atomic (d : Device) (i : AstarteInterface)
    (h : ∃ chk ∈ validationSequence i, chk.isSome = true) :
    (AddInterface d i).1.isSome = true ∧
    (AddInterface d i).2.interfaces = d.interfaces := by
  have hne : firstSome (validationSequence i) ≠ none := by
    intro hnone
    rw [firstSome_eq_none_iff] at hnone
    obtain ⟨chk, hmem, hsome⟩ := h
    rw [hnone chk hmem] at hsome
    simp at hsome
  refine ⟨?_, ?_⟩
  · rw [addInterface_fst]
    exact Option.ne_none_iff_isSome.mp hne
  · rw [addInterface_snd_of_err d i hne]

/-- C4 witness: a device with an empty registry and an interface whose
aggregation is invalid. -/
theorem addInterface_atomic_witness :
    (AddInterface { sampleDevice with interfaces := [] }
      { sampleInterface with Aggregation := "bogus" }).1.isSome = true ∧
    (AddInterface { sampleDevice with interfaces := [] }
      { sampleInterface with Aggregation := "bogus" }).2.interfaces =
      ({ sampleDevice with interfaces := [] } : Device).interfaces :=
  addInterface_atomic _ _ (by decide)

/-- C5 (amended): the error returned by `AddInterface` is the first
failing check in the order aggregation, type, ownership, then for each
mapping reliability, retention, database-retention policy — but the
database-retention check runs for every mapping regardless of the
interface type, so an interface whose only invalid field is a mapping's
database-retention policy is rejected even for time-series
(`datastream`) interfaces. -/
theorem addInterface_validation_order (d : Device) (i : AstarteInterface) :
    (AddInterface d i).1 = firstSome (validationSequence i) :=
  addInterface_fst d i

/-- C5 counterexample: a `datastream` interface whose only invalid field
is a mapping's database-retention policy is rejected, not admitted — the
call returns the database-retention error and leaves the registry
unchanged. -/
theorem datastream_invalid_dbretention_rejected :
    AddInterface { sampleDevice with interfaces := [] }
      { Name := "com.example.Stream"
        Aggregation := "individual"
        Type_ := "datastream"
        Ownership := "device"
        Mappings := [{ Reliability := "unreliable", Retention := "discard",
                       DatabaseRetentionPolicy := "bogus" }] } =
      (some "invalid database retention policy",
       { sampleDevice with interfaces := [] }) := by
  rfl

/-- C8: re-adding an interface with the same name replaces the previous
entry — after `AddInterface x` then `AddInterface y` with `y.Name =
x.Name`, both admitted, looking the name up returns exactly `y`. -/
theorem addInterface_last_write_wins (d : Device) (x y : AstarteInterface)
    (hname : y.Name = x.Name)
    (hx : (AddInterface d x).1 = none)
    (hy : (AddInterface (AddInterface d x).2 y).1 = none) :
    mapLookup x.Name (AddInterface (AddInterface d x).2 y).2.interfaces = some y := by
  have h2 := addInterface_snd_of_ok (AddInterface d x).2 y
    (by rw [← addInterface_fst]; exact hy)
  rw [h2, hname, mapLookup_insert]

/-- C8 witness: two valid interfaces of the same name with different
content; the registry returns the second. -/
theorem addInterface_last_write_wins_witness :
    mapLookup sampleInterface.Name
      (AddInterface
        (AddInterface { sampleDevice with interfaces := [] } sampleInterface).2
        { sampleInterface with Ownership := "server" }).2.interfaces =
      some { sampleInterface with Ownership := "server" } :=
  addInterface_last_write_wins { sampleDevice with interfaces := [] }
    sampleInterface { sampleInterface with Ownership := "server" } rfl rfl rfl

/-- C9: calling `Connect` with a nil result channel is a no-op — the
goroutine returns immediately with no handshake step performed, no
collaborator called, no device-state mutation and no value delivered on
any channel. -/
theorem connect_nil_channel_noop (d : Device) (env : ConnectEnv) :
    Connect d true env = some (baseOutcome d) := rfl

/-- C2 (amended): for every device identifier rejected by the
identity-validity rule, construction fails with the invalid-device-ID
error and instantiates no pairing API client; `NewDeviceWithPersistency`
has no side effects at all, but `NewDevice` calls `ioutil.TempDir`
before validating the identifier, so whenever that call succeeds a
persistence location has been created despite the failure. -/
theorem construction_invalid_id_no_client
    (deviceID realm credentialsSecret pairingBaseURL persistencyDir : String)
    (clientResult : Except String Client)
    (h : IsValidAstarteDeviceID deviceID = false) :
    NewDeviceWithPersistency deviceID realm credentialsSecret pairingBaseURL
        persistencyDir clientResult =
      { tempDirsCreated := [], clientsCreated := 0,
        result := Except.error (deviceID ++ " is not a valid Device ID") } ∧
    NewDevice deviceID realm credentialsSecret pairingBaseURL
        (Except.ok persistencyDir) clientResult =
      { tempDirsCreated := [persistencyDir], clientsCreated := 0,
        result := Except.error (deviceID ++ " is not a valid Device ID") } := by
  unfold NewDevice NewDeviceWithPersistency newDevice
  rw [h]
  exact ⟨rfl, rfl⟩

/-- C2 witness: a concrete rejected identifier (wrong length). -/
theorem construction_invalid_id_no_client_witness :
    NewDeviceWithPersistency "short" "test" "secret" "http://pairing.example"
        "/data/astarte"
        (Except.ok { pairingBaseURL := "http://pairing.example", token := none }) =
      { tempDirsCreated := [], clientsCreated := 0,
        result := Except.error ("short" ++ " is not a valid Device ID") } ∧
    NewDevice "short" "test" "secret" "http://pairing.example"
        (Except.ok "/data/astarte")
        (Except.ok { pairingBaseURL := "http://pairing.example", token := none }) =
      { tempDirsCreated := ["/data/astarte"], clientsCreated := 0,
        result := Except.error ("short" ++ " is not a valid Device ID") } :=
  construction_invalid_id_no_client "short" "test" "secret"
    "http://pairing.example" "/data/astarte"
    (Except.ok { pairingBaseURL := "http://pairing.example", token := none }) rfl

/-- C2 counterexample: `NewDevice` on an invalid identifier fails with
the invalid-device-ID error and yet a persistence location has been
created — the temporary directory is made before validation, refuting
"no persistence location is created". -/
theorem newDevice_invalid_id_creates_tempdir :
    (NewDevice "bad_id" "realm" "secret" "http://pairing.example"
        (Except.ok "/tmp/bad_id123456")
        (Except.ok { pairingBaseURL := "http://pairing.example", token := none })).tempDirsCreated =
      ["/tmp/bad_id123456"] ∧
    (NewDevice "bad_id" "realm" "secret" "http://pairing.example"
        (Except.ok "/tmp/bad_id123456")
        (Except.ok { pairingBaseURL := "http://pairing.example", token := none })).result =
      Except.error ("bad_id" ++ " is not a valid Device ID") :=
  ⟨rfl, rfl⟩

/-- C6 (amended): for every device that is not already connected and
whose interface registry is empty, `Connect` with a non-nil channel
reports the no-interfaces-registered error and terminates with every
collaborator call count zero. -/
theorem connect_empty_registry_reports_error (d : Device) (env : ConnectEnv)
    (hconn : d.IsConnected = false) (hifs : d.interfaces = []) :
    Connect d false env =
      some { baseOutcome d with
        emitted := [some "Add at least an interface before attempting to connect"] } := by
  unfold Connect
  rw [hconn, hifs]

/-- C6 witness: a fresh device with no registered interfaces. -/
theorem connect_empty_registry_reports_error_witness :
    Connect { sampleDevice with interfaces := [] } false sampleEnv =
      some { baseOutcome { sampleDevice with interfaces := [] } with
        emitted := [some "Add at least an interface before attempting to connect"] } :=
  connect_empty_registry_reports_error _ sampleEnv rfl rfl

/-- C6 counterexample: a device whose registry is empty but whose
transport is already live — the idempotence check runs first, so
`Connect` delivers the nil success value, not the
no-interfaces-registered error. -/
theorem connect_empty_registry_connected_reports_success :
    (Connect { sampleDevice with interfaces := [], m := some { connected := true } }
        false sampleEnv).map (fun o => o.emitted) = some [none] := rfl

/-- C1 (amended): on every terminating `Connect` run with a non-nil
channel, exactly one outcome is delivered on the channel — except when
auto-reconnect is enabled and the transport handshake errors, in which
case the transport-connect error is delivered and the outcome of the
remaining steps follows as a second value. -/
theorem connect_emits_once_unless_autoreconnect_transport_error
    (d : Device) (env : ConnectEnv) (o : ConnectOutcome)
    (h : Connect d false env = some o) :
    o.emitted.length = 1 ∨
      (d.AutoReconnect = true ∧ env.connectError.isSome = true ∧
        o.emitted.length = 2) := by
  unfold Connect at h
  repeat' split at h
  all_goals try (obtain rfl := Option.some_inj.mp h)
  all_goals simp_all [baseOutcome, afterTransport_emitted_length]

/-- C1 witness: an already-connected device reports success exactly
once. -/
theorem connect_emits_once_unless_autoreconnect_transport_error_witness :
    ({ baseOutcome { sampleDevice with m := some { connected := true } } with
        emitted := [none] } : ConnectOutcome).emitted.length = 1 ∨
      (({ sampleDevice with m := some { connected := true } } : Device).AutoReconnect = true ∧
        sampleEnv.connectError.isSome = true ∧
        ({ baseOutcome { sampleDevice with m := some { connected := true } } with
            emitted := [none] } : ConnectOutcome).emitted.length = 2) :=
  connect_emits_once_unless_autoreconnect_transport_error _ sampleEnv _ rfl

/-- C1 counterexample: auto-reconnect enabled, every collaborator
succeeding except the transport handshake — the channel receives the
transport-connect error and then a second value (the nil success of the
remaining steps), refuting exactly-once delivery. -/
theorem connect_double_emission :
    (Connect { sampleDevice with AutoReconnect := true } false
        { sampleEnv with connectError := some "transport handshake failed" }).map
      (fun o => o.emitted) =
    some [some "transport handshake failed", none] := rfl

/-- C3: broker resolution is the only retrying step of the handshake:
with auto-reconnect disabled a resolution failure is reported after
exactly one attempt and the handshake terminates; with auto-reconnect
enabled resolution is retried after a fixed 30-time-unit wait,
unboundedly, until it succeeds; and certificate assurance is called at
most once per handshake and its failure forecloses every later step,
even when auto-reconnect is enabled. -/
theorem broker_resolution_retry_policy :
    (∀ (d : Device) (env : ConnectEnv) (e : String)
       (rest : List (Except String String)) (o : ConnectOutcome),
       d.AutoReconnect = false → d.IsConnected = false → d.interfaces ≠ [] →
       env.brokerResults = Except.error e :: rest →
       Connect d false env = some o →
       o.emitted = [some e] ∧ o.brokerAttempts = 1 ∧ o.brokerWaitUnits = 0 ∧
       o.certCalls = 0 ∧ o.transportConnectCalls = 0) ∧
    (∀ (l : List (Except String String)) (r : Except String String) (n w : Nat),
       resolveBroker true l = some (r, n, w) →
       (∃ u, r = Except.ok u) ∧ w = 30 * (n - 1)) ∧
    (∀ (errs : List (Except String String)) (u : String)
       (rest : List (Except String String)),
       (∀ x ∈ errs, ∃ msg, x = Except.error msg) →
       resolveBroker true (errs ++ Except.ok u :: rest) =
         some (Except.ok u, errs.length + 1, 30 * errs.length)) ∧
    (∀ (d : Device) (c : Bool) (env : ConnectEnv) (o : ConnectOutcome),
       Connect d c env = some o → o.certCalls ≤ 1) ∧
    (∀ (d : Device) (c : Bool) (env : ConnectEnv) (o : ConnectOutcome),
       Connect d c env = some o → env.certResult.isSome = true →
       o.transportConnectCalls = 0 ∧ o.subscribeCalls = 0 ∧
       o.introspectionCalls = 0) := by
  refine ⟨?_, resolveBroker_autoReconnect_ok, resolveBroker_retries_until_ok, ?_, ?_⟩
  · intro d env e rest o hAR hconn hifs henv h
    obtain ⟨p, rest', hshape⟩ : ∃ p rest', d.interfaces = p :: rest' := by
      cases hd : d.interfaces with
      | nil => exact absurd hd hifs
      | cons a b => exact ⟨a, b, rfl⟩
    have hres : resolveBroker d.AutoReconnect env.brokerResults =
        some (Except.error e, 1, 0) := by
      rw [hAR, henv]; simp [resolveBroker]
    unfold Connect at h
    rw [hconn, hshape, hres] at h
    obtain rfl := Option.some_inj.mp h
    exact ⟨rfl, rfl, rfl, rfl, rfl⟩
  · intro d c env o h
    cases c with
    | true =>
      unfold Connect at h
      obtain rfl := Option.some_inj.mp h
      simp [baseOutcome]
    | false =>
      unfold Connect at h
      repeat' split at h
      all_goals try (obtain rfl := Option.some_inj.mp h)
      all_goals simp_all [baseOutcome, afterTransport_certCalls]
  · intro d c env o h hcert
    cases c with
    | true =>
      unfold Connect at h
      obtain rfl := Option.some_inj.mp h
      exact ⟨rfl, rfl, rfl⟩
    | false =>
      unfold Connect at h
      repeat' split at h
      all_goals try (obtain rfl := Option.some_inj.mp h)
      all_goals simp_all [baseOutcome]

/-- C3 witness: two attempts (one failure, one success) under
auto-reconnect cost one 30-unit wait, and a failure with auto-reconnect
disabled is reported on the channel after exactly one attempt with no
later collaborator called. -/
theorem broker_resolution_retry_policy_witness :
    resolveBroker true
        [Except.error "resolve failed", Except.ok "mqtts://broker.example"] =
      some (Except.ok "mqtts://broker.example", 2, 30) ∧
    (({ baseOutcome sampleDevice with
        emitted := [some "resolve failed"], brokerAttempts := 1,
        brokerWaitUnits := 0 } : ConnectOutcome).emitted = [some "resolve failed"] ∧
      ({ baseOutcome sampleDevice with
        emitted := [some "resolve failed"], brokerAttempts := 1,
        brokerWaitUnits := 0 } : ConnectOutcome).brokerAttempts = 1 ∧
      ({ baseOutcome sampleDevice with
        emitted := [some "resolve failed"], brokerAttempts := 1,
        brokerWaitUnits := 0 } : ConnectOutcome).brokerWaitUnits = 0 ∧
      ({ baseOutcome sampleDevice with
        emitted := [some "resolve failed"], brokerAttempts := 1,
        brokerWaitUnits := 0 } : ConnectOutcome).certCalls = 0 ∧
      ({ baseOutcome sampleDevice with
        emitted := [some "resolve failed"], brokerAttempts := 1,
        brokerWaitUnits := 0 } : ConnectOutcome).transportConnectCalls = 0) :=
  ⟨broker_resolution_retry_policy.2.2.1 [Except.error "resolve failed"]
      "mqtts://broker.example" []
      (by intro x hx; simp at hx; subst hx; exact ⟨_, rfl⟩),
   broker_resolution_retry_policy.1 sampleDevice
      { sampleEnv with brokerResults := [Except.error "resolve failed"] }
      "resolve failed" [] _ rfl rfl (by simp [sampleDevice]) rfl rfl⟩

/-- C7: when subscription setup or introspection publish fails after the
transport step, `Connect` requests a transport disconnect, delivers that
step's error as the last value on the result channel, terminates, and
the device reports not-connected afterwards. -/
theorem connect_post_transport_failure_disconnects
    (d : Device) (env : ConnectEnv) (e url : String) (n w : Nat)
    (hconn : d.IsConnected = false) (hifs : d.interfaces ≠ [])
    (hbr : resolveBroker d.AutoReconnect env.brokerResults =
      some (Except.ok url, n, w))
    (hcert : env.certResult = none) (hmqtt : env.mqttInitResult = none)
    (hnotimeout : d.AutoReconnect = true ∨ env.connectComplete = true)
    (hfail : env.subscribeResult = some e ∨
      (env.subscribeResult = none ∧ env.introspectionResult = some e)) :
    ∃ o, Connect d false env = some o ∧ o.disconnectRequests = 1 ∧
      o.emitted.getLast? = some (some e) ∧
      o.finalDevice.IsConnected = false := by
  obtain ⟨p, rest', hshape⟩ : ∃ p rest', d.interfaces = p :: rest' := by
    cases hd : d.interfaces with
    | nil => exact absurd hd hifs
    | cons a b => exact ⟨a, b, rfl⟩
  unfold Connect
  rw [hconn, hshape, hbr, hcert, hmqtt]
  cases hAR : d.AutoReconnect with
  | true =>
    cases hce : env.connectError with
    | some ce =>
      refine ⟨_, rfl, ?_, ?_, ?_⟩
      · exact (afterTransport_failure _ _ _ e n w [some ce] false hfail).1
      · rw [(afterTransport_failure _ _ _ e n w [some ce] false hfail).2.1]; rfl
      · exact (afterTransport_failure _ _ _ e n w [some ce] false hfail).2.2
    | none =>
      refine ⟨_, rfl, ?_, ?_, ?_⟩
      · exact (afterTransport_failure _ _ _ e n w [] true hfail).1
      · rw [(afterTransport_failure _ _ _ e n w [] true hfail).2.1]; rfl
      · exact (afterTransport_failure _ _ _ e n w [] true hfail).2.2
  | false =>
    have hcc : env.connectComplete = true := by
      cases hnotimeout with
      | inl h' => rw [hAR] at h'; exact absurd h' (by simp)
      | inr h' => exact h'
    rw [hcc]
    refine ⟨_, rfl, ?_, ?_, ?_⟩
    · exact (afterTransport_failure _ _ _ e n w [] env.connectError.isNone hfail).1
    · rw [(afterTransport_failure _ _ _ e n w [] env.connectError.isNone hfail).2.1]; rfl
    · exact (afterTransport_failure _ _ _ e n w [] env.connectError.isNone hfail).2.2

/-- C7 witness: every collaborator succeeds except subscription setup. -/
theorem connect_post_transport_failure_disconnects_witness :
    ∃ o, Connect sampleDevice false
        { sampleEnv with subscribeResult := some "subscription failed" } =
      some o ∧ o.disconnectRequests = 1 ∧
      o.emitted.getLast? = some (some "subscription failed") ∧
      o.finalDevice.IsConnected = false :=
  connect_post_transport_failure_disconnects sampleDevice
    { sampleEnv with subscribeResult := some "subscription failed" }
    "subscription failed" "mqtts://broker.example" 1 0 rfl
    (by simp [sampleDevice]) rfl rfl rfl (Or.inr rfl) (Or.inl rfl)

/-- The observable behaviour of one `Connect` run towards its caller and
collaborators: channel emissions and every call count (everything in a
`ConnectOutcome` except the final transport handle, whose own state
legitimately reflects the handshake result). -/
def obsOf (o : ConnectOutcome) :
    List (Option String) × Nat × Nat × Nat × Nat × Nat × Nat × Nat :=
  (o.emitted, o.brokerAttempts, o.brokerWaitUnits, o.certCalls,
   o.transportConnectCalls, o.subscribeCalls, o.introspectionCalls,
   o.disconnectRequests)

lemma afterTransport_obs_ignores_up (d : Device) (s i : Option String)
    (n w : Nat) (pre : List (Option String)) (up up' : Bool) :
    obsOf (afterTransport d s i n w pre up) =
    obsOf (afterTransport d s i n w pre up') := by
  unfold afterTransport obsOf
  cases s with
  | some e => rfl
  | none =>
    cases i with
    | some e => rfl
    | none => rfl

/-- C10: with auto-reconnect disabled, the MQTT connect token's error is
never inspected: the observable behaviour of `Connect` (its channel
emissions and all collaborator call counts — in particular, that it
proceeds to subscription setup whenever the handshake completes within
the timeout) is identical for any two token errors, so a
transport-connect error, as opposed to a timeout, can be reported on the
result channel only when auto-reconnect is enabled. -/
theorem connect_token_error_ignored_without_autoreconnect
    (d : Device) (c : Bool) (br : List (Except String String))
    (cr mi : Option String) (cc : Bool) (ce ce' sr ir : Option String)
    (h : d.AutoReconnect = false) :
    (Connect d c
        { brokerResults := br, certResult := cr, mqttInitResult := mi,
          connectComplete := cc, connectError := ce, subscribeResult := sr,
          introspectionResult := ir }).map obsOf =
    (Connect d c
        { brokerResults := br, certResult := cr, mqttInitResult := mi,
          connectComplete := cc, connectError := ce', subscribeResult := sr,
          introspectionResult := ir }).map obsOf := by
  cases c with
  | true => rfl
  | false =>
    unfold Connect
    cases hc : d.IsConnected with
    | true => rfl
    | false =>
      cases hd : d.interfaces with
      | nil => rfl
      | cons p rest =>
        rw [h]
        cases hres : resolveBroker false br with
        | none => rfl
        | some trip =>
          obtain ⟨r, n, w⟩ := trip
          cases r with
          | error e => rfl
          | ok url =>
            cases cr with
            | some e => rfl
            | none =>
              cases mi with
              | some e => rfl
              | none =>
                cases cc with
                | false => rfl
                | true =>
                  exact congrArg some (afterTransport_obs_ignores_up _ _ _ _ _ _ _ _)

/-- C10 witness: the handshake completes within the timeout but with an
error; the observable run equals the error-free one. -/
theorem connect_token_error_ignored_without_autoreconnect_witness :
    (Connect sampleDevice false
        { brokerResults := [Except.ok "mqtts://broker.example"],
          certResult := none, mqttInitResult := none, connectComplete := true,
          connectError := some "transport handshake failed",
          subscribeResult := none, introspectionResult := none }).map obsOf =
    (Connect sampleDevice false
        { brokerResults := [Except.ok "mqtts://broker.example"],
          certResult := none, mqttInitResult := none, connectComplete := true,
          connectError := none,
          subscribeResult := none, introspectionResult := none }).map obsOf :=
  connect_token_error_ignored_without_autoreconnect sampleDevice false
    [Except.ok "mqtts://broker.example"] none none true
    (some "transport handshake failed") none none none rfl
